import Mathlib

/-!
Verification of the `cmd` package (mh-orange/cmd): a mockable abstraction
over external-process execution.  The development shallowly embeds the three
Go source components:

* `multiWriter` (the fan-out Broadcaster of `io.go`): an ordered list of
  sinks; `Write` replicates a buffer to every sink in registration order,
  `close` cascades closing over the closing-capable sinks, `copy` drains a
  source into the broadcaster and then closes it.
* `process` (the real process of `cmd.go`): argument-list finalization,
  the pipe-acquisition / drain-task / spawn sequence of `Start`, and `Kill`.
* `testProcess` (the test double of `cmd.go`): canned byte buffers and
  injectable errors; its two drain goroutines are joined by a `sync.WaitGroup`
  inside `Wait`, so the sequential embedding applies their effects at the
  `Wait` barrier, which is exactly the observable guarantee of the code.

Bytes are modelled as `Nat`, errors as the inductive `Err` (with `Err.eof`
for `io.EOF` and `Err.shortWrite` for `io.ErrShortWrite`).  Go's `error`
values are `Option Err` (`none` = `nil`).  The mutex of `multiWriter` only
serializes the operations; the embedding is sequential, so it has no
counterpart.
-/

/-- Errors.  `eof` is `io.EOF`, `shortWrite` is `io.ErrShortWrite`, and
`errC n` stands for any other distinct error value. -/
inductive Err where
  | eof : Err
  | shortWrite : Err
  | errC : Nat → Err
deriving DecidableEq

/-- A registered destination (`io.Writer`, optionally also an `io.Closer`).
`writeFn` is the sink's own `Write` response to a buffer: the count of bytes
accepted and the returned error.  `received` records the buffers actually
delivered to the sink's `Write` (in order), so "the sink was never invoked"
is `received` unchanged.  `closeFn` is `none` when the sink has no closing
capability (no `io.Closer` interface); `some e` means `Close` exists and
returns `e`.  `closeCalls` counts invocations of `Close`. -/
structure Sink where
  writeFn : List Nat → Nat × Option Err
  received : List (List Nat)
  closeFn : Option (Option Err)
  closeCalls : Nat

/-- Deliver buffer `p` to a sink: its `Write` is invoked, so the buffer is
recorded in `received`. -/
def deliver (p : List Nat) (s : Sink) : Sink :=
  { s with received := s.received ++ [p] }

/-- Record one invocation of a sink's `Close`. -/
def closeOnce (s : Sink) : Sink :=
  { s with closeCalls := s.closeCalls + 1 }

/-- `multiWriter.Write` over the ordered sink list: for each sink in
registration order invoke its `Write` with the full buffer; abort returning
the sink's error if non-nil; otherwise if the sink accepted fewer than
`len(p)` bytes abort with `io.ErrShortWrite`; if every sink succeeds return
`(len(p), nil)`. -/
def mwWrite : List Sink → List Nat → List Sink × (Nat × Option Err)
  | [], p => ([], (p.length, none))
  | w :: ws, p =>
    let r := w.writeFn p
    let w' := deliver p w
    match r.2 with
    | some e => (w' :: ws, (r.1, some e))
    | none =>
      if r.1 ≠ p.length then
        (w' :: ws, (r.1, some Err.shortWrite))
      else
        let rest := mwWrite ws p
        (w' :: rest.1, rest.2)

/-- `multiWriter.close`: iterate the sinks in registration order; a sink
without closing capability is skipped; on a closing-capable sink invoke
`Close` and break out returning its error if non-nil. -/
def mwClose : List Sink → List Sink × Option Err
  | [] => ([], none)
  | w :: ws =>
    match w.closeFn with
    | none =>
      let rest := mwClose ws
      (w :: rest.1, rest.2)
    | some ce =>
      let w' := closeOnce w
      match ce with
      | some e => (w' :: ws, some e)
      | none =>
        let rest := mwClose ws
        (w' :: rest.1, rest.2)

/-- The `io.Copy(mw, reader)` loop inside `multiWriter.copy`: the reader is
a list of chunks followed by a terminal read result (`none` = clean `io.EOF`,
`some e` = a read error).  Each chunk is forwarded to `mwWrite`; the loop
stops at the first write error, otherwise it ends with the terminal read
result.  Returns the updated sinks and `io.Copy`'s error. -/
def ioCopy (ws : List Sink) : List (List Nat) → Option Err → List Sink × Option Err
  | [], readErr => (ws, readErr)
  | c :: cs, readErr =>
    let r := mwWrite ws c
    match r.2.2 with
    | some e => (r.1, some e)
    | none => ioCopy r.1 cs readErr

/-- `multiWriter.copy`: `io.Copy(mw, reader)` — its returned error is
discarded — then `return mw.close()`. -/
def mwCopy (ws : List Sink) (chunks : List (List Nat)) (readErr : Option Err) :
    List Sink × Option Err :=
  let r := ioCopy ws chunks readErr
  mwClose r.1

/-- A `bytes.Buffer` sink: accepts every buffer fully with no error, and has
no closing capability. -/
def bufferSink : Sink :=
  { writeFn := fun p => (p.length, none), received := [], closeFn := none,
    closeCalls := 0 }

/-- A sink whose `Write` fails with error `e` after accepting `n` bytes
(the `errWriter` of the tests has `n = 0`, `e = Err.eof`). -/
def errSink (n : Nat) (e : Err) : Sink :=
  { writeFn := fun _ => (n, some e), received := [], closeFn := none,
    closeCalls := 0 }

/-- The `shortWriter` of the tests: accepts `len(data) - 1` bytes and
reports no error. -/
def shortSink : Sink :=
  { writeFn := fun p => (p.length - 1, none), received := [], closeFn := none,
    closeCalls := 0 }

/-- The `closeWriter` of the tests: accepts every write fully; its `Close`
returns `e`. -/
def closeErrSink (e : Err) : Sink :=
  { writeFn := fun p => (p.length, none), received := [], closeFn := some (some e),
    closeCalls := 0 }

/-- A sink that accepts every write fully and whose `Close` succeeds. -/
def closeOkSink : Sink :=
  { writeFn := fun p => (p.length, none), received := [], closeFn := some none,
    closeCalls := 0 }

/-! ## The real process (`cmd.go`) -/

/-- The outcomes of the OS primitives a `Start` call can hit, treated as a
black box: `StderrPipe`, `StdoutPipe` (`none` = the pipe handle was acquired)
and `cmd.Start` (`none` = the spawn succeeded). -/
structure OSBehavior where
  stderrPipeErr : Option Err
  stdoutPipeErr : Option Err
  spawnErr : Option Err

/-- The `process` struct.  `cmdArgs` is `proc.cmd.Args` (Go's `exec.Command`
initializes it to the path followed by the base arguments); `args` is
`proc.args`, the per-instance extra arguments.  `stderrDrain` / `stdoutDrain`
record whether the corresponding drain goroutine was launched,
`spawnInvoked` whether `proc.cmd.Start()` was called, and `osProcess` is
`proc.cmd.Process`, populated (with an opaque handle) only by a successful
spawn. -/
structure Proc where
  cmdArgs : List String
  args : List String
  stderrDrain : Bool
  stdoutDrain : Bool
  spawnInvoked : Bool
  osProcess : Option Nat

/-- `cmd.Process()`: a fresh, non-running process whose `exec.Cmd` was built
by `exec.Command(path, baseArgs...)`, so `cmd.Args = path :: baseArgs`. -/
def mkProc (path : String) (baseArgs : List String) : Proc :=
  { cmdArgs := path :: baseArgs, args := [], stderrDrain := false,
    stdoutDrain := false, spawnInvoked := false, osProcess := none }

/-- `process.AppendArgs`: append the new arguments to `proc.args`. -/
def appendArgs (p : Proc) (more : List String) : Proc :=
  { p with args := p.args ++ more }

/-- `process.Start`.  In source order: finalize
`proc.cmd.Args = append(proc.cmd.Args, proc.args...)`; acquire the stderr
pipe (on failure return that error at once — nothing launched, no spawn);
launch the stderr drain goroutine; acquire the stdout pipe, and on success
launch the stdout drain goroutine; finally, only if `err` is still nil,
invoke `proc.cmd.Start()` and return its error. -/
def procStart (os : OSBehavior) (p : Proc) : Proc × Option Err :=
  let p := { p with cmdArgs := p.cmdArgs ++ p.args }
  match os.stderrPipeErr with
  | some e => (p, some e)
  | none =>
    let p := { p with stderrDrain := true }
    match os.stdoutPipeErr with
    | some e => (p, some e)
    | none =>
      let p := { p with stdoutDrain := true, spawnInvoked := true }
      match os.spawnErr with
      | some e => (p, some e)
      | none => ({ p with osProcess := some 0 }, none)

/-- `process.Kill` is `proc.cmd.Process.Kill()`: it unconditionally
dereferences `proc.cmd.Process`.  When the handle is nil (no successful
spawn ever happened) the dereference is a nil-pointer panic, modelled as the
outer `none`; otherwise the result is the OS kill primitive's error,
`killRes`. -/
def procKill (killRes : Option Err) (p : Proc) : Option (Option Err) :=
  match p.osProcess with
  | none => none
  | some _ => some killRes

/-! ## The test double (`testProcess` in `cmd.go`) -/

/-- The `testProcess` struct.  `stdout` / `stderr` are the canned byte
buffers; `stdoutWriter` / `stderrWriter` the two broadcasters;
`tasksPending` is true between a successful `Start` (which does `wg.Add(2)`
and launches the two drain goroutines) and the `wg.Wait()` barrier inside
`Wait` that joins them. -/
structure TestProc where
  stdout : List Nat
  stderr : List Nat
  stdoutWriter : List Sink
  stderrWriter : List Sink
  tasksPending : Bool
  startErr : Option Err
  waitErr : Option Err
  killErr : Option Err

/-- `TestCmd.Process()`: a fresh test process with the configured buffers
and errors and the given registered sinks (registration itself is
`multiWriter.add`, i.e. list append). -/
def mkTestProc (out err : List Nat) (outs errs : List Sink)
    (se we ke : Option Err) : TestProc :=
  { stdout := out, stderr := err, stdoutWriter := outs, stderrWriter := errs,
    tasksPending := false, startErr := se, waitErr := we, killErr := ke }

/-- One drain goroutine of `testProcess.Start`: if the canned buffer is
non-empty, `Write` it to the broadcaster (result ignored), then `Close` the
broadcaster (error ignored), then `wg.Done()`. -/
def drainTask (data : List Nat) (ws : List Sink) : List Sink :=
  let ws := if 0 < data.length then (mwWrite ws data).1 else ws
  (mwClose ws).1

/-- `testProcess.Start`: if a start error is configured, return it without
launching anything; otherwise launch the two drain goroutines and return
nil. -/
def tpStart (tp : TestProc) : TestProc × Option Err :=
  match tp.startErr with
  | some e => (tp, some e)
  | none => ({ tp with tasksPending := true }, none)

/-- The `wg.Wait()` barrier: when drain goroutines are pending, their
effects are complete by the time the barrier is passed.  The sequential
embedding applies both drain tasks here. -/
def tpJoin (tp : TestProc) : TestProc :=
  if tp.tasksPending then
    { tp with stdoutWriter := drainTask tp.stdout tp.stdoutWriter,
              stderrWriter := drainTask tp.stderr tp.stderrWriter,
              tasksPending := false }
  else tp

/-- `testProcess.Wait`: block on the completion gate, then return the
configured wait error. -/
def tpWait (tp : TestProc) : TestProc × Option Err :=
  (tpJoin tp, tp.waitErr)

/-- `testProcess.Kill`: returns the configured kill error unconditionally. -/
def tpKill (tp : TestProc) : Option Err := tp.killErr

/-! ## Helper lemmas -/

/-- The step `multiWriter.close` performs on a single non-aborting sink:
a closing-capable sink whose `Close` succeeds is closed once, a sink without
the capability is left untouched. -/
def closeStep (s : Sink) : Sink :=
  match s.closeFn with
  | some none => closeOnce s
  | _ => s

theorem mwWrite_append_ok (pre : List Sink) (rest : List Sink) (p : List Nat)
    (hpre : ∀ w ∈ pre, w.writeFn p = (p.length, none)) :
    mwWrite (pre ++ rest) p =
      (pre.map (deliver p) ++ (mwWrite rest p).1, (mwWrite rest p).2) := by
  induction pre with
  | nil => simp [mwWrite]
  | cons w ws ih =>
    have hw : w.writeFn p = (p.length, none) := hpre w (by simp)
    have hws : ∀ x ∈ ws, x.writeFn p = (p.length, none) := by
      intro x hx; exact hpre x (by simp [hx])
    simp [mwWrite, hw, ih hws]

theorem mwClose_append_ok (pre : List Sink) (rest : List Sink)
    (hpre : ∀ w ∈ pre, ∀ e, w.closeFn ≠ some (some e)) :
    mwClose (pre ++ rest) =
      (pre.map closeStep ++ (mwClose rest).1, (mwClose rest).2) := by
  induction pre with
  | nil => simp
  | cons w ws ih =>
    have hw : ∀ e, w.closeFn ≠ some (some e) := hpre w (by simp)
    have hws : ∀ x ∈ ws, ∀ e, x.closeFn ≠ some (some e) := by
      intro x hx; exact hpre x (by simp [hx])
    match hcf : w.closeFn with
    | none => simp [mwClose, hcf, ih hws, closeStep]
    | some none => simp [mwClose, hcf, ih hws, closeStep]
    | some (some e) => exact absurd hcf (hw e)

theorem mwWrite_replicate_buffer (n : Nat) (p : List Nat) :
    mwWrite (List.replicate n bufferSink) p =
      (List.replicate n (deliver p bufferSink), (p.length, none)) := by
  induction n with
  | zero => simp [mwWrite]
  | succ m ih =>
    have hb : bufferSink.writeFn p = (p.length, none) := rfl
    simp [List.replicate_succ, mwWrite, hb, ih]

theorem mwClose_no_closers (ws : List Sink)
    (h : ∀ w ∈ ws, w.closeFn = none) :
    mwClose ws = (ws, none) := by
  induction ws with
  | nil => rfl
  | cons w rest ih =>
    have hw : w.closeFn = none := h w (by simp)
    have hrest : ∀ x ∈ rest, x.closeFn = none := by
      intro x hx; exact h x (by simp [hx])
    simp [mwClose, hw, ih hrest]

theorem ioCopy_state_ignores_readErr (chunks : List (List Nat))
    (ws : List Sink) (r1 r2 : Option Err) :
    (ioCopy ws chunks r1).1 = (ioCopy ws chunks r2).1 := by
  induction chunks generalizing ws with
  | nil => rfl
  | cons c cs ih =>
    simp only [ioCopy]
    match (mwWrite ws c).2.2 with
    | some e => rfl
    | none => exact ih _

/-! ## Claim theorems: the Broadcaster -/

/-- C3: on a Broadcaster whose first `k-1` sinks accept the buffer fully,
if sink `k`'s write returns an error then `Write` delivers the full buffer
to sinks `1..k-1` and to sink `k`, returns sink `k`'s error (and its byte
count), and never invokes the later sinks for that call. -/
theorem mwWrite_first_error_aborts (pre post : List Sink) (s : Sink)
    (p : List Nat) (n : Nat) (e : Err)
    (hpre : ∀ w ∈ pre, w.writeFn p = (p.length, none))
    (hs : s.writeFn p = (n, some e)) :
    mwWrite (pre ++ s :: post) p =
      (pre.map (deliver p) ++ deliver p s :: post, (n, some e)) := by
  rw [mwWrite_append_ok pre (s :: post) p hpre]
  simp [mwWrite, hs]

/-- Witness for C3: one fully-succeeding buffer sink, then the tests'
`errWriter`, then another buffer sink that is never reached. -/
theorem mwWrite_first_error_aborts_witness :
    mwWrite ([bufferSink] ++ errSink 0 Err.eof :: [bufferSink]) [1, 2] =
      ([bufferSink].map (deliver [1, 2]) ++
        deliver [1, 2] (errSink 0 Err.eof) :: [bufferSink], (0, some Err.eof)) :=
  mwWrite_first_error_aborts [bufferSink] [bufferSink] (errSink 0 Err.eof)
    [1, 2] 0 Err.eof
    (by intro w hw; rw [List.mem_singleton] at hw; subst hw; rfl) rfl

/-- C4: on a Broadcaster whose earlier sinks accept the buffer fully, a sink
that reports no error but accepts fewer bytes than the buffer length makes
`Write` abort at that sink with the distinct short-write error
`io.ErrShortWrite`; later sinks are not invoked. -/
theorem mwWrite_short_write_aborts (pre post : List Sink) (s : Sink)
    (p : List Nat) (n : Nat)
    (hpre : ∀ w ∈ pre, w.writeFn p = (p.length, none))
    (hs : s.writeFn p = (n, none)) (hn : n < p.length) :
    mwWrite (pre ++ s :: post) p =
      (pre.map (deliver p) ++ deliver p s :: post, (n, some Err.shortWrite)) := by
  rw [mwWrite_append_ok pre (s :: post) p hpre]
  have hne : n ≠ p.length := Nat.ne_of_lt hn
  simp [mwWrite, hs, hne]

/-- Witness for C4: the tests' `shortWriter` accepts `len(p) - 1 = 2` bytes
of a 3-byte buffer without error and `Write` returns the short-write
error. -/
theorem mwWrite_short_write_aborts_witness :
    mwWrite ([] ++ shortSink :: [bufferSink]) [1, 2, 3] =
      ([].map (deliver [1, 2, 3]) ++
        deliver [1, 2, 3] shortSink :: [bufferSink], (2, some Err.shortWrite)) :=
  mwWrite_short_write_aborts [] [bufferSink] shortSink [1, 2, 3] 2
    (by intro w hw; cases hw) rfl (by decide)

/-- C10: `Write` on a Broadcaster with zero registered sinks succeeds,
returning the full buffer length and no error; the bytes are silently
discarded (no sink state exists to receive them). -/
theorem mwWrite_no_sinks (p : List Nat) :
    mwWrite [] p = ([], (p.length, none)) := rfl

/-- C6: `close` iterates the destinations in registration order, invokes the
closing capability only on capable sinks (`closeStep` closes exactly those),
skips non-capable sinks without error, and aborts returning the first
non-null error, leaving every later destination unclosed. -/
theorem mwClose_first_error_aborts (pre post : List Sink) (c : Sink) (e : Err)
    (hpre : ∀ w ∈ pre, ∀ e', w.closeFn ≠ some (some e'))
    (hc : c.closeFn = some (some e)) :
    mwClose (pre ++ c :: post) =
      (pre.map closeStep ++ closeOnce c :: post, some e) := by
  rw [mwClose_append_ok pre (c :: post) hpre]
  simp [mwClose, hc]

/-- Witness for C6: a non-capable buffer sink and a successfully-closing
sink, then the tests' `closeWriter` whose `Close` fails, then a capable sink
that is left unclosed. -/
theorem mwClose_first_error_aborts_witness :
    mwClose ([bufferSink, closeOkSink] ++ closeErrSink Err.eof :: [closeOkSink]) =
      ([bufferSink, closeOkSink].map closeStep ++
        closeOnce (closeErrSink Err.eof) :: [closeOkSink], some Err.eof) :=
  mwClose_first_error_aborts [bufferSink, closeOkSink] [closeOkSink]
    (closeErrSink Err.eof) Err.eof
    (by
      intro w hw e'
      rw [List.mem_cons, List.mem_singleton] at hw
      rcases hw with rfl | rfl
      · simp [bufferSink]
      · simp [closeOkSink])
    rfl

/-- C2 counterexample: `copy` does not propagate a non-end-of-stream read
error.  A source that fails with the non-EOF error `errC 0` before yielding
any chunk makes the copy phase fail with that error, yet `copy` returns
`nil` (the close error of a closer-less sink list), not the read error. -/
theorem mwCopy_drops_read_error :
    (ioCopy [bufferSink] [] (some (Err.errC 0))).2 = some (Err.errC 0) ∧
    mwCopy [bufferSink] [] (some (Err.errC 0)) = ([bufferSink], none) :=
  ⟨rfl, rfl⟩

/-- C2 (amended): `copy` forwards the source to `write` until exhaustion or
a write error, then always calls `close()` on the resulting state and
returns exactly close's result; the copy phase's error — in particular any
non-EOF terminal read error — is discarded and has no effect on `copy`'s
result at all. -/
theorem mwCopy_returns_close_result (ws : List Sink)
    (chunks : List (List Nat)) (readErr : Option Err) :
    mwCopy ws chunks readErr = mwClose (ioCopy ws chunks readErr).1 ∧
    mwCopy ws chunks readErr = mwCopy ws chunks none := by
  refine ⟨rfl, ?_⟩
  show mwClose (ioCopy ws chunks readErr).1 = mwClose (ioCopy ws chunks none).1
  rw [ioCopy_state_ignores_readErr chunks ws readErr none]

/-! ## Claim theorems: the real process -/

/-- C1 counterexample: with the error-stream pipe acquired and the
output-stream pipe acquisition failing, `Start` does NOT invoke the OS spawn
primitive — it returns the output-pipe error with `spawnInvoked = false`
(while the error-drain task was already launched).  This refutes the claim
that spawning still proceeds on output-pipe failure. -/
theorem procStart_stdout_failure_skips_spawn :
    (procStart ⟨none, some (Err.errC 1), none⟩ (mkProc "prog" ["a"])).1.spawnInvoked
        = false ∧
    (procStart ⟨none, some (Err.errC 1), none⟩ (mkProc "prog" ["a"])).2 =
      some (Err.errC 1) ∧
    (procStart ⟨none, some (Err.errC 1), none⟩ (mkProc "prog" ["a"])).1.stderrDrain
        = true :=
  ⟨rfl, rfl, rfl⟩

/-- C1 (amended): if the error-stream pipe is acquired but the output-stream
pipe acquisition fails, `Start` returns the output-pipe error without
invoking the OS spawn primitive; only the error-drain task has been launched
(the asymmetry), the output-drain task is skipped and no spawn happens — so
`Start` aborts before spawning on either pipe-acquisition failure, not only
on the error-stream one. -/
theorem procStart_stdout_pipe_failure (os : OSBehavior) (p : Proc) (e : Err)
    (h1 : os.stderrPipeErr = none) (h2 : os.stdoutPipeErr = some e) :
    procStart os p =
      ({ p with cmdArgs := p.cmdArgs ++ p.args, stderrDrain := true }, some e) := by
  rcases os with ⟨se, so, sp⟩
  cases h1
  cases h2
  rfl

/-- Witness for C1's amended theorem at a concrete process and OS outcome. -/
theorem procStart_stdout_pipe_failure_witness :
    procStart ⟨none, some Err.eof, none⟩ (mkProc "prog" ["a"]) =
      ({ mkProc "prog" ["a"] with
          cmdArgs := (mkProc "prog" ["a"]).cmdArgs ++ (mkProc "prog" ["a"]).args,
          stderrDrain := true }, some Err.eof) :=
  procStart_stdout_pipe_failure ⟨none, some Err.eof, none⟩ (mkProc "prog" ["a"])
    Err.eof rfl rfl

theorem procStart_cmdArgs_finalized (os : OSBehavior) (p : Proc) :
    (procStart os p).1.cmdArgs = p.cmdArgs ++ p.args := by
  rcases os with ⟨se, so, sp⟩
  cases se <;> cases so <;> cases sp <;> rfl

theorem foldl_appendArgs (calls : List (List String)) (p : Proc) :
    (calls.foldl appendArgs p).args = p.args ++ calls.flatten ∧
    (calls.foldl appendArgs p).cmdArgs = p.cmdArgs := by
  induction calls generalizing p with
  | nil => simp
  | cons c cs ih =>
    obtain ⟨h1, h2⟩ := ih (appendArgs p c)
    simp only [List.foldl_cons, List.flatten_cons]
    rw [h1, h2]
    simp [appendArgs, List.append_assoc]

/-- C5: for every OS outcome, every command path and base-argument list, and
every sequence of `AppendArgs` calls made before `Start`, the argument list
finalized at `Start` (presented to the OS) is the `exec.Cmd`'s initial list
— the path followed by the base arguments — followed by the appended
arguments flattened in call order. -/
theorem procStart_finalized_args_order (os : OSBehavior) (path : String)
    (base : List String) (calls : List (List String)) :
    (procStart os (calls.foldl appendArgs (mkProc path base))).1.cmdArgs =
      path :: (base ++ calls.flatten) := by
  rw [procStart_cmdArgs_finalized,
    (foldl_appendArgs calls (mkProc path base)).1,
    (foldl_appendArgs calls (mkProc path base)).2]
  simp [mkProc]

/-- C9: `Kill` is well-defined exactly under the precondition of a successful
spawn.  When `Start` returned nil, the OS handle is populated and `Kill`
returns the OS kill primitive's result; on a process whose handle was never
populated — such as a freshly manufactured one — `Kill` dereferences a nil
handle and has no defined result (the outer `none`). -/
theorem procKill_spawn_precondition (os : OSBehavior) (p : Proc)
    (k : Option Err) (path : String) (base : List String)
    (h : (procStart os p).2 = none) :
    procKill k (procStart os p).1 = some k ∧
    procKill k (mkProc path base) = none := by
  refine ⟨?_, rfl⟩
  rcases os with ⟨se, so, sp⟩
  cases se <;> cases so <;> cases sp <;> simp_all [procStart, procKill]

/-- Witness for C9: a successful start makes `Kill` return the OS result;
the fresh process gives no defined result. -/
theorem procKill_spawn_precondition_witness :
    procKill (some Err.eof) (procStart ⟨none, none, none⟩ (mkProc "prog" [])).1 =
      some (some Err.eof) ∧
    procKill (some Err.eof) (mkProc "other" ["b"]) = none :=
  procKill_spawn_precondition ⟨none, none, none⟩ (mkProc "prog" [])
    (some Err.eof) "other" ["b"] rfl

/-! ## Claim theorems: the test double -/

/-- The configured output bytes of the C7 scenario, ASCII `hello`. -/
def helloBytes : List Nat := [104, 101, 108, 108, 111]

/-- The configured error bytes of the C7 scenario, ASCII `world`. -/
def worldBytes : List Nat := [119, 111, 114, 108, 100]

theorem drainTask_replicate_buffer (d : List Nat) (n : Nat)
    (hd : 0 < d.length) :
    drainTask d (List.replicate n bufferSink) =
      List.replicate n (deliver d bufferSink) := by
  have hclose : ∀ w ∈ List.replicate n (deliver d bufferSink), w.closeFn = none := by
    intro w hw
    rw [List.eq_of_mem_replicate hw]
    rfl
  simp only [drainTask, if_pos hd, mwWrite_replicate_buffer,
    mwClose_no_closers _ hclose]

/-- C7: a test double with no start error, output bytes `hello`, error bytes
`world`, and any number of buffer sinks registered per stream before start:
`Start` succeeds; `Wait` joins both drain tasks (final state has no pending
task), after which every output sink has received exactly `hello` and every
error sink exactly `world`, and `Wait` returns the configured wait error. -/
theorem testProcess_delivers_buffers (m k : Nat) (we ke : Option Err) :
    (tpStart (mkTestProc helloBytes worldBytes (List.replicate m bufferSink)
        (List.replicate k bufferSink) none we ke)).2 = none ∧
    tpWait (tpStart (mkTestProc helloBytes worldBytes (List.replicate m bufferSink)
        (List.replicate k bufferSink) none we ke)).1 =
      ({ stdout := helloBytes, stderr := worldBytes,
         stdoutWriter := List.replicate m (deliver helloBytes bufferSink),
         stderrWriter := List.replicate k (deliver worldBytes bufferSink),
         tasksPending := false, startErr := none, waitErr := we,
         killErr := ke }, we) := by
  refine ⟨rfl, ?_⟩
  have hh : 0 < helloBytes.length := by decide
  have hw : 0 < worldBytes.length := by decide
  simp [tpStart, mkTestProc, tpWait, tpJoin,
    drainTask_replicate_buffer helloBytes m hh,
    drainTask_replicate_buffer worldBytes k hw]

/-- C8: a test double configured with a start error returns that error from
`Start` with the state unchanged — no drain task is launched — and a
subsequent `Wait` also leaves the state (in particular every registered
sink) unchanged while returning the configured wait error. -/
theorem testProcess_start_error (tp : TestProc) (e : Err)
    (h1 : tp.startErr = some e) (h2 : tp.tasksPending = false) :
    tpStart tp = (tp, some e) ∧ tpWait tp = (tp, tp.waitErr) := by
  constructor
  · simp [tpStart, h1]
  · simp [tpWait, tpJoin, h2]

/-- Witness for C8: a concrete double with canned bytes, empty buffer sinks
and a configured start error. -/
theorem testProcess_start_error_witness :
    tpStart (mkTestProc helloBytes worldBytes [bufferSink] [bufferSink]
        (some Err.eof) none none) =
      (mkTestProc helloBytes worldBytes [bufferSink] [bufferSink]
        (some Err.eof) none none, some Err.eof) ∧
    tpWait (mkTestProc helloBytes worldBytes [bufferSink] [bufferSink]
        (some Err.eof) none none) =
      (mkTestProc helloBytes worldBytes [bufferSink] [bufferSink]
        (some Err.eof) none none,
       (mkTestProc helloBytes worldBytes [bufferSink] [bufferSink]
        (some Err.eof) none none).waitErr) :=
  testProcess_start_error
    (mkTestProc helloBytes worldBytes [bufferSink] [bufferSink]
      (some Err.eof) none none) Err.eof rfl rfl
